import Mathlib

/-!
Error capabilities of the agent: `errors.go`

A shallow embedding of package `newrelic`, file `errors.go`: the three
capability interfaces `StackTracer`, `ErrorClasser`, `ErrorAttributer`, the
struct `Error` and its three value-receiver methods.

* Go `string` is `String`; `uintptr` is `Nat`.
* Go `map[string]interface{}` is `GoMap V`: either the nil map or a reference
  to a finite table with unique keys.  The element type `interface{}` is the
  type parameter `V`, so every statement holds for arbitrary attribute values.
* Go method sets and interface satisfaction are embedded as tables of method
  signatures (`MethodSig`), read off the declarations of the file.
-/

set_option linter.dupNamespace false

namespace newrelic

/-! ## Go types and method signatures -/

/-- The Go types that occur in the declarations of `errors.go`. -/
inductive GoType where
  | string : GoType
  | uintptr : GoType
  | emptyInterface : GoType
  | slice (elem : GoType) : GoType
  | map (key value : GoType) : GoType
  deriving DecidableEq, Repr

/-- A method signature: name, parameter types, result types. -/
structure MethodSig where
  name : String
  params : List GoType
  results : List GoType
  deriving DecidableEq, Repr

/-- A Go interface type, as the list of the methods it requires. -/
abbrev Interface := List MethodSig

/-- The signature `StackTrace() []uintptr`. -/
def sigStackTrace : MethodSig := ⟨"StackTrace", [], [GoType.slice GoType.uintptr]⟩

/-- The signature `ErrorClass() string`. -/
def sigErrorClass : MethodSig := ⟨"ErrorClass", [], [GoType.string]⟩

/-- The signature `ErrorAttributes() map[string]interface{}`. -/
def sigErrorAttributes : MethodSig :=
  ⟨"ErrorAttributes", [], [GoType.map GoType.string GoType.emptyInterface]⟩

/-- The signature `Error() string`. -/
def sigError : MethodSig := ⟨"Error", [], [GoType.string]⟩

/-- Interface `StackTracer` (errors.go, lines 5-7). -/
def StackTracer : Interface := [sigStackTrace]

/-- Interface `ErrorClasser` (errors.go, lines 11-13). -/
def ErrorClasser : Interface := [sigErrorClass]

/-- Interface `ErrorAttributer` (errors.go, lines 17-19). -/
def ErrorAttributer : Interface := [sigErrorAttributes]

/-- The predeclared Go interface `error`: `Error() string`. -/
def error : Interface := [sigError]

/-- Interface satisfaction: a method set implements an interface when it holds
every method the interface requires, with the same signature. -/
def implements (methodSet : List MethodSig) (i : Interface) : Bool :=
  i.all (fun m => methodSet.contains m)

/-! ## Go maps -/

/-- A Go value of type `map[string]V`: the nil map, or a reference to a table
of entries with unique keys. -/
inductive GoMap (V : Type) where
  | nil : GoMap V
  | ref (table : AList (fun _ : String => V)) : GoMap V

namespace GoMap

variable {V : Type}

/-- Go `m == nil`. -/
def isNil : GoMap V → Bool
  | nil => true
  | ref _ => false

/-- Go `len(m)`; the nil map has length 0. -/
def len : GoMap V → Nat
  | nil => 0
  | ref t => t.entries.length

/-- Go `v, ok := m[k]`, with `none` for `ok == false`; reading the nil map
finds nothing. -/
def lookup (k : String) : GoMap V → Option V
  | nil => none
  | ref t => t.lookup k

/-- The keys of the map. -/
def keys : GoMap V → List String
  | nil => []
  | ref t => t.keys

end GoMap

/-! ## The struct `Error` and its methods -/

/-- Struct `Error` (errors.go, lines 33-43). -/
structure Error (V : Type) where
  Message : String
  Class : String
  Attributes : GoMap V

/-- The field declarations of struct `Error`, in source order. -/
def errorFields : List (String × GoType) :=
  [("Message", GoType.string), ("Class", GoType.string),
   ("Attributes", GoType.map GoType.string GoType.emptyInterface)]

/-- The method set of type `Error`: the three methods declared with receiver
`(e Error)` (errors.go, lines 45-51). -/
def errorMethodSet : List MethodSig := [sigError, sigErrorClass, sigErrorAttributes]

/-- The Go zero value `Error{}`: empty strings and the nil map. -/
def zeroError (V : Type) : Error V := ⟨"", "", GoMap.nil⟩

/-- Method `func (e Error) ErrorClass() string { return e.Class }`. -/
def Error.ErrorClass {V : Type} (e : Error V) : String := e.Class

/-- Method
`func (e Error) ErrorAttributes() map[string]interface{} { return e.Attributes }`. -/
def Error.ErrorAttributes {V : Type} (e : Error V) : GoMap V := e.Attributes

/-- Method `func (e Error) Error() string { return e.Message }`. -/
def Error.Error {V : Type} (e : newrelic.Error V) : String := e.Message

/-! ## Calls of the accessors, with the receiver passed explicitly -/

/-- The three methods of `Error`, as call targets. -/
inductive Accessor where
  | Error : Accessor
  | ErrorClass : Accessor
  | ErrorAttributes : Accessor
  deriving DecidableEq, Repr

/-- The value a call returns: a `string` or a `map[string]interface{}`. -/
inductive Result (V : Type) where
  | str (s : String) : Result V
  | attrs (m : GoMap V) : Result V

/-- The Go type of a returned value. -/
def Result.goType {V : Type} : Result V → GoType
  | Result.str _ => GoType.string
  | Result.attrs _ => GoType.map GoType.string GoType.emptyInterface

/-- The declared signature of each method of `Error`. -/
def Accessor.sig : Accessor → MethodSig
  | Accessor.Error => sigError
  | Accessor.ErrorClass => sigErrorClass
  | Accessor.ErrorAttributes => sigErrorAttributes

/-- One call `e.M()`: the returned value and the value of `e` after the call.
Each body is a single `return e.<field>`; no statement assigns to the receiver
or writes to the map. -/
def call {V : Type} (a : Accessor) (e : Error V) : Result V × Error V :=
  match a with
  | Accessor.Error => (Result.str e.Error, e)
  | Accessor.ErrorClass => (Result.str e.ErrorClass, e)
  | Accessor.ErrorAttributes => (Result.attrs e.ErrorAttributes, e)

/-- A finite sequence of calls on `e`, in order: the results of the calls and
the value of `e` after the last one. -/
def runCalls {V : Type} : List Accessor → Error V → List (Result V) × Error V
  | [], e => ([], e)
  | a :: rest, e =>
    let step := call a e
    let tail := runCalls rest step.2
    (step.1 :: tail.1, tail.2)

/-! ## Capability probing by the reporting entry point -/

/-- An arbitrary Go value of interface type `error`, as a caller that probes it
sees it: the name of its dynamic type, the result of `Error()`, and for each
capability interface the result of its method when the dynamic type implements
the interface (`none` when the type assertion fails). -/
structure ErrorValue (V : Type) where
  typeName : String
  Error : String
  StackTrace : Option (List Nat)
  ErrorClass : Option String
  ErrorAttributes : Option (GoMap V)

/-- What the reporting pipeline records for an error value. -/
structure Probed (V : Type) where
  message : String
  stack : List Nat
  klass : String
  attributes : GoMap V

/-- Modelled from the spec: the capability probing done by the reporting entry
point (`Transaction.NoticeError`), whose code is not part of `errors.go`.  Each
capability is resolved independently; an absent capability is replaced by its
default: the empty stack trace, a class derived from the runtime type name (the
derivation `classOfTypeName` is left open by the spec and is a parameter), and
no extra attributes. -/
def probe {V : Type} (classOfTypeName : String → String) (v : ErrorValue V) : Probed V :=
  { message := v.Error
    stack := match v.StackTrace with
      | some st => st
      | none => []
    klass := match v.ErrorClass with
      | some c => c
      | none => classOfTypeName v.typeName
    attributes := match v.ErrorAttributes with
      | some m => m
      | none => GoMap.nil }

/-! ## Concrete values used to evaluate the statements -/

/-- The attribute map of the usage example in the doc comment of `Error`,
with both values as strings. -/
def exampleAttributes : GoMap String :=
  GoMap.ref ((AList.insert "important_number" "97232"
    (AList.insert "relevant_string" "zap" (∅ : AList (fun _ : String => String)))))

/-- The `Error` value of the usage example in the doc comment of `Error`. -/
def exampleError : Error String :=
  ⟨"error message: something went very wrong", "errors are aggregated by class",
    exampleAttributes⟩

/-- An error value whose dynamic type has only the method `Error() string`. -/
def plainErrorValue : ErrorValue String :=
  { typeName := "*errors.errorString"
    Error := "boom"
    StackTrace := none
    ErrorClass := none
    ErrorAttributes := none }

/-! ## Helper lemmas -/

theorem call_snd {V : Type} (a : Accessor) (e : Error V) : (call a e).2 = e := by
  cases a <;> rfl

theorem runCalls_snd {V : Type} (cs : List Accessor) (e : Error V) :
    (runCalls cs e).2 = e := by
  induction cs generalizing e with
  | nil => rfl
  | cons a rest ih =>
    show (runCalls rest (call a e).2).2 = e
    rw [call_snd, ih]

theorem runCalls_fst {V : Type} (cs : List Accessor) (e : Error V) :
    (runCalls cs e).1 = cs.map (fun a => (call a e).1) := by
  induction cs generalizing e with
  | nil => rfl
  | cons a rest ih =>
    show (call a e).1 :: (runCalls rest (call a e).2).1 = _
    rw [call_snd, ih]
    rfl

/-! ## The claims -/

/-- C1: for every `Error` value `e`, `e.Error()` returns exactly `e.Message`;
with an empty message the result is the empty string, whatever the class and
the attributes (the nil map included). -/
theorem Error_returns_Message {V : Type} (e : Error V) :
    e.Error = e.Message ∧
    (∀ (c : String) (m : GoMap V), (Error.mk "" c m).Error = "") ∧
    (∀ (msg c : String), (Error.mk msg c (GoMap.nil : GoMap V)).Error = msg) :=
  ⟨rfl, fun _ _ => rfl, fun _ _ => rfl⟩

/-- C2: for every `Error` value `e`, `e.ErrorClass()` returns exactly `e.Class`;
with an empty class the result is the empty string, no default is put in its
place. -/
theorem ErrorClass_returns_Class {V : Type} (e : Error V) :
    e.ErrorClass = e.Class ∧
    (∀ (msg : String) (m : GoMap V), (Error.mk msg "" m).ErrorClass = "") :=
  ⟨rfl, fun _ _ => rfl⟩

/-- C3: for every `Error` value `e`, `e.ErrorAttributes()` returns exactly the
map stored in `e.Attributes`: the same map value, hence the same keys, the same
length, the same binding for every key, and the nil map is returned as the nil
map. -/
theorem ErrorAttributes_returns_Attributes {V : Type} (e : Error V) :
    e.ErrorAttributes = e.Attributes ∧
    e.ErrorAttributes.keys = e.Attributes.keys ∧
    e.ErrorAttributes.len = e.Attributes.len ∧
    (∀ k : String, e.ErrorAttributes.lookup k = e.Attributes.lookup k) ∧
    e.ErrorAttributes.isNil = e.Attributes.isNil ∧
    (∀ (msg c : String), (Error.mk msg c (GoMap.nil : GoMap V)).ErrorAttributes = GoMap.nil) :=
  ⟨rfl, rfl, rfl, fun _ => rfl, rfl, fun _ _ => rfl⟩

/-- C4, as stated, fails: the method set of `Error` does not implement all three
of `StackTracer`, `ErrorClasser` and `ErrorAttributer`. -/
theorem Error_not_all_three_capabilities :
    ¬ (implements errorMethodSet StackTracer = true ∧
       implements errorMethodSet ErrorClasser = true ∧
       implements errorMethodSet ErrorAttributer = true) := by
  decide

/-- C4, amended: `Error` implements `ErrorClasser` and `ErrorAttributer`, each
by returning a field (`Class`, `Attributes`), and it does not implement
`StackTracer`: its method set has no method named `StackTrace` and the struct
has no field of type `[]uintptr`. -/
theorem Error_two_capabilities {V : Type} (e : Error V) :
    implements errorMethodSet ErrorClasser = true ∧
    implements errorMethodSet ErrorAttributer = true ∧
    implements errorMethodSet StackTracer = false ∧
    e.ErrorClass = e.Class ∧
    e.ErrorAttributes = e.Attributes ∧
    (errorMethodSet.map MethodSig.name).contains "StackTrace" = false ∧
    (errorFields.map Prod.snd).contains (GoType.slice GoType.uintptr) = false := by
  refine ⟨by decide, by decide, by decide, rfl, rfl, by decide, by decide⟩

/-- C5: the type `Error` implements `error`, `ErrorClasser` and
`ErrorAttributer`: its method set holds `Error() string`, `ErrorClass() string`
and `ErrorAttributes() map[string]interface{}` with exactly the signatures the
interfaces require, and every call returns a value of the declared result
type. -/
theorem Error_implements_interfaces {V : Type} (e : Error V) :
    implements errorMethodSet error = true ∧
    implements errorMethodSet ErrorClasser = true ∧
    implements errorMethodSet ErrorAttributer = true ∧
    errorMethodSet = error ++ ErrorClasser ++ ErrorAttributer ∧
    (∀ a : Accessor, a.sig ∈ errorMethodSet ∧ a.sig.params = [] ∧
      a.sig.results = [(call a e).1.goType]) ∧
    Accessor.ErrorAttributes.sig.results =
      [GoType.map GoType.string GoType.emptyInterface] := by
  refine ⟨by decide, by decide, by decide, rfl, ?_, rfl⟩
  intro a
  cases a
  · exact ⟨by decide, rfl, rfl⟩
  · exact ⟨by decide, rfl, rfl⟩
  · exact ⟨by decide, rfl, rfl⟩

/-- C6: for the zero value `Error{}`, `ErrorClass()` is the empty string,
`ErrorAttributes()` is an empty map (length 0, no keys, every lookup finds
nothing), and `Error()` is the empty string. -/
theorem zeroError_accessors {V : Type} :
    (zeroError V).ErrorClass = "" ∧
    (zeroError V).ErrorAttributes.len = 0 ∧
    (zeroError V).ErrorAttributes.keys = [] ∧
    (∀ k : String, (zeroError V).ErrorAttributes.lookup k = none) ∧
    (zeroError V).Error = "" :=
  ⟨rfl, rfl, rfl, fun _ => rfl, rfl⟩

/-- C7: every accessor is total: for every `Error` value each of `Error()`,
`ErrorClass()` and `ErrorAttributes()` returns a value (the embedding has no
failure outcome), also on an empty message, an empty class and the nil map, and
in every sequence of calls each call returns a result. -/
theorem accessors_total {V : Type} (e : Error V) :
    (∃ s : String, e.Error = s) ∧
    (∃ c : String, e.ErrorClass = c) ∧
    (∃ m : GoMap V, e.ErrorAttributes = m) ∧
    (∃ s c m, (Error.mk "" "" (GoMap.nil : GoMap V)).Error = s ∧
      (Error.mk "" "" (GoMap.nil : GoMap V)).ErrorClass = c ∧
      (Error.mk "" "" (GoMap.nil : GoMap V)).ErrorAttributes = m) ∧
    (∀ a : Accessor, ∃ r : Result V, (call a e).1 = r) ∧
    (∀ cs : List Accessor, (runCalls cs e).1.length = cs.length) := by
  refine ⟨⟨_, rfl⟩, ⟨_, rfl⟩, ⟨_, rfl⟩, ⟨_, _, _, rfl, rfl, rfl⟩, fun a => ⟨_, rfl⟩, ?_⟩
  intro cs
  rw [runCalls_fst, List.length_map]

/-- C8: the accessors are side-effect-free and idempotent: after any finite
sequence of calls on `e` the value of `e` (its fields `Message`, `Class`,
`Attributes`) is what it was before, each call returns what that accessor
returns on the initial `e`, and two calls of the same accessor in the sequence
return the same result. -/
theorem accessors_frame_idempotent {V : Type} (e : Error V) (cs : List Accessor) :
    (runCalls cs e).2 = e ∧
    (runCalls cs e).2.Message = e.Message ∧
    (runCalls cs e).2.Class = e.Class ∧
    (runCalls cs e).2.Attributes = e.Attributes ∧
    (runCalls cs e).1 = cs.map (fun a => (call a e).1) ∧
    (∀ i j : Nat, cs[i]? = cs[j]? →
      (runCalls cs e).1[i]? = (runCalls cs e).1[j]?) := by
  refine ⟨runCalls_snd cs e, ?_, ?_, ?_, runCalls_fst cs e, ?_⟩
  · rw [runCalls_snd]
  · rw [runCalls_snd]
  · rw [runCalls_snd]
  · intro i j h
    rw [runCalls_fst, List.getElem?_map, List.getElem?_map, h]

/-- Witness for C8 on the example value: in the sequence `Error`, `ErrorClass`,
`Error`, `ErrorAttributes` the first and third calls are of the same accessor
and return the same result, and the value is unchanged. -/
theorem accessors_frame_idempotent_witness :
    [Accessor.Error, Accessor.ErrorClass, Accessor.Error, Accessor.ErrorAttributes][0]? =
      [Accessor.Error, Accessor.ErrorClass, Accessor.Error, Accessor.ErrorAttributes][2]? ∧
    (runCalls [Accessor.Error, Accessor.ErrorClass, Accessor.Error,
        Accessor.ErrorAttributes] exampleError).2 = exampleError ∧
    (runCalls [Accessor.Error, Accessor.ErrorClass, Accessor.Error,
        Accessor.ErrorAttributes] exampleError).1[0]? =
      (runCalls [Accessor.Error, Accessor.ErrorClass, Accessor.Error,
        Accessor.ErrorAttributes] exampleError).1[2]? :=
  ⟨rfl,
   (accessors_frame_idempotent exampleError
      [Accessor.Error, Accessor.ErrorClass, Accessor.Error, Accessor.ErrorAttributes]).1,
   (accessors_frame_idempotent exampleError
      [Accessor.Error, Accessor.ErrorClass, Accessor.Error,
        Accessor.ErrorAttributes]).2.2.2.2.2 0 2 rfl⟩

/-- C9: for a value that implements only the minimal error contract, probing
returns a record (it cannot fail) holding the defaults: the empty stack trace,
the class derived from the runtime type name, and no extra attributes. -/
theorem probe_defaults {V : Type} (classOfTypeName : String → String) (v : ErrorValue V)
    (hst : v.StackTrace = none) (hc : v.ErrorClass = none)
    (ha : v.ErrorAttributes = none) :
    (∃ r : Probed V, probe classOfTypeName v = r) ∧
    (probe classOfTypeName v).stack = [] ∧
    (probe classOfTypeName v).klass = classOfTypeName v.typeName ∧
    (probe classOfTypeName v).attributes.len = 0 ∧
    (∀ k : String, (probe classOfTypeName v).attributes.lookup k = none) ∧
    (probe classOfTypeName v).message = v.Error := by
  refine ⟨⟨_, rfl⟩, ?_, ?_, ?_, ?_, rfl⟩
  · simp only [probe, hst]
  · simp only [probe, hc]
  · simp only [probe, ha, GoMap.len]
  · intro k
    simp only [probe, ha, GoMap.lookup]

/-- Witness for C9 on a plain error value, with the type name itself as the
derived class. -/
theorem probe_defaults_witness :
    plainErrorValue.StackTrace = none ∧ plainErrorValue.ErrorClass = none ∧
    plainErrorValue.ErrorAttributes = none ∧
    (probe id plainErrorValue).stack = [] ∧
    (probe id plainErrorValue).klass = "*errors.errorString" ∧
    (probe id plainErrorValue).attributes.len = 0 :=
  ⟨rfl, rfl, rfl,
   (probe_defaults id plainErrorValue rfl rfl rfl).2.1,
   (probe_defaults id plainErrorValue rfl rfl rfl).2.2.1,
   (probe_defaults id plainErrorValue rfl rfl rfl).2.2.2.1⟩

/-- C10: each accessor depends on exactly one field: two `Error` values with
the same `Message` have the same `Error()`, with the same `Class` the same
`ErrorClass()`, with the same `Attributes` the same `ErrorAttributes()`,
whatever their other fields. -/
theorem accessors_depend_on_one_field {V : Type} (e1 e2 : Error V) :
    (e1.Message = e2.Message → e1.Error = e2.Error) ∧
    (e1.Class = e2.Class → e1.ErrorClass = e2.ErrorClass) ∧
    (e1.Attributes = e2.Attributes → e1.ErrorAttributes = e2.ErrorAttributes) :=
  ⟨fun h => h, fun h => h, fun h => h⟩

/-- Witness for C10: two values that agree on one field at a time and differ on
the others. -/
theorem accessors_depend_on_one_field_witness :
    (Error.mk "m" "c1" exampleAttributes).Message = (Error.mk "m" "c2" (GoMap.nil : GoMap String)).Message ∧
    (Error.mk "m" "c1" exampleAttributes).Error = (Error.mk "m" "c2" (GoMap.nil : GoMap String)).Error ∧
    (Error.mk "m1" "c" exampleAttributes).ErrorClass = (Error.mk "m2" "c" (GoMap.nil : GoMap String)).ErrorClass ∧
    (Error.mk "m1" "c1" exampleAttributes).ErrorAttributes =
      (Error.mk "m2" "c2" exampleAttributes).ErrorAttributes :=
  ⟨rfl,
   (accessors_depend_on_one_field (Error.mk "m" "c1" exampleAttributes)
      (Error.mk "m" "c2" GoMap.nil)).1 rfl,
   (accessors_depend_on_one_field (Error.mk "m1" "c" exampleAttributes)
      (Error.mk "m2" "c" GoMap.nil)).2.1 rfl,
   (accessors_depend_on_one_field (Error.mk "m1" "c1" exampleAttributes)
      (Error.mk "m2" "c2" exampleAttributes)).2.2 rfl⟩

end newrelic
